import Mathlib

/-!
Verification of the RAL-Sponsors generator scripts
(`generate_sponsors.py` and `fetch_from_api.py`).

Amounts are modelled as rationals (`ℚ`): every amount the scripts handle is
produced by parsing decimal strings, and the arithmetic performed on them is
addition and comparison only, which the embedding mirrors exactly.
-/

namespace RALSponsors

/-- A benefit tier, mirroring the dictionaries in the `TIERS` tables of
`generate_sponsors.py` (lines 35-81) and `fetch_from_api.py` (lines 26-37),
which are identical. -/
structure Tier where
  id : String
  name : String
  nameEn : String
  color : String
  particleType : String
  order : ℕ
  minAmount : ℚ
deriving DecidableEq, Repr

/-- The fixed five-entry tier table (`TIERS` in both scripts). -/
def TIERS : List Tier :=
  [ ⟨"galaxy_guardian", "银河守护者", "Galaxy Guardian", "#9B59B6", "galaxy", 100, 200⟩,
    ⟨"starlight_patron", "星空探索家", "Starlight Patron", "#E74C3C", "firework", 80, 100⟩,
    ⟨"cosmic_supporter", "极致合伙人", "Cosmic Supporter", "#3498DB", "stars", 60, 50⟩,
    ⟨"beta_scout", "星光先锋", "Starlight Pioneer", "#2ECC71", "sparkle", 40, 18⟩,
    ⟨"early_supporter", "爱心维护员", "Early Supporter", "#F39C12", "none", 20, 5⟩ ]

/-- `get_tier_id` (identical in both scripts): scan `TIERS` in order and
return the id of the first tier whose `minAmount` is at most the amount;
fall back to `"early_supporter"` when none matches. -/
def get_tier_id (total_amount : ℚ) : String :=
  match TIERS.find? (fun t => decide (t.minAmount ≤ total_amount)) with
  | some t => t.id
  | none => "early_supporter"

/-- The sort-order rank attached to a tier identifier.  This is exactly the
key function of `process_sponsors` in `fetch_from_api.py` (lines 163-165):
`next((t['order'] for t in TIERS if t['id'] == x['tier']), 0)`. -/
def tierOrderOf (id : String) : ℕ :=
  match TIERS.find? (fun t => decide (t.id = id)) with
  | some t => t.order
  | none => 0

/-- The minimum qualifying amount of the tier carrying a given identifier
(`0` for an unknown identifier); a spec-side lookup helper. -/
def minAmountOf (id : String) : ℚ :=
  match TIERS.find? (fun t => decide (t.id = id)) with
  | some t => t.minAmount
  | none => 0

/-- Closed form of `get_tier_id` as nested threshold tests. -/
theorem get_tier_id_eq (a : ℚ) :
    get_tier_id a =
      if 200 ≤ a then "galaxy_guardian"
      else if 100 ≤ a then "starlight_patron"
      else if 50 ≤ a then "cosmic_supporter"
      else if 18 ≤ a then "beta_scout"
      else "early_supporter" := by
  by_cases h1 : (200 : ℚ) ≤ a
  · simp [get_tier_id, TIERS, List.find?, h1]
  · by_cases h2 : (100 : ℚ) ≤ a
    · simp [get_tier_id, TIERS, List.find?, h1, h2]
    · by_cases h3 : (50 : ℚ) ≤ a
      · simp [get_tier_id, TIERS, List.find?, h1, h2, h3]
      · by_cases h4 : (18 : ℚ) ≤ a
        · simp [get_tier_id, TIERS, List.find?, h1, h2, h3, h4]
        · by_cases h5 : (5 : ℚ) ≤ a
          · simp [get_tier_id, TIERS, List.find?, h1, h2, h3, h4, h5]
          · simp [get_tier_id, TIERS, List.find?, h1, h2, h3, h4, h5]

/-- Monotonicity of the classifier with respect to tier rank (helper shared
by several theorems): a larger amount never yields a lower-ranked tier. -/
theorem tierOrderOf_get_tier_id_mono {a b : ℚ} (hab : a ≤ b) :
    tierOrderOf (get_tier_id a) ≤ tierOrderOf (get_tier_id b) := by
  rw [get_tier_id_eq a, get_tier_id_eq b]
  split_ifs <;>
    first
      | rfl
      | (exfalso; linarith)
      | simp [tierOrderOf, TIERS, List.find?]

/-- C1 counterexample: at amount `0` the classifier falls back to
`"early_supporter"`, whose minimum amount `5` is not `≤ 0`, so the claimed
property fails for the non-negative amount `0`. -/
theorem c1_counterexample :
    get_tier_id 0 = "early_supporter" ∧ ¬ minAmountOf (get_tier_id 0) ≤ 0 := by
  constructor
  · rfl
  · rw [show get_tier_id 0 = "early_supporter" from rfl]
    simp [minAmountOf, TIERS, List.find?]

/-- C1 (amended): for every amount at least the lowest tier floor `5`, the
classifier returns the identifier of exactly one tier of the table, that
tier's minimum is at most the amount, and no tier with a strictly greater
minimum also has its minimum at most the amount. -/
theorem c1_highest_qualifying_tier (a : ℚ) (h : (5 : ℚ) ≤ a) :
    (TIERS.filter (fun t => decide (t.id = get_tier_id a))).length = 1 ∧
    minAmountOf (get_tier_id a) ≤ a ∧
    ∀ t' ∈ TIERS, minAmountOf (get_tier_id a) < t'.minAmount → a < t'.minAmount := by
  rw [get_tier_id_eq a]
  split_ifs with h1 h2 h3 h4
  · refine ⟨by decide, ?_, ?_⟩
    · simp [minAmountOf, TIERS, List.find?]; linarith
    · intro t' ht'
      simp only [minAmountOf, TIERS, List.find?]
      fin_cases ht' <;> simp <;> norm_num
  · refine ⟨by decide, ?_, ?_⟩
    · simp [minAmountOf, TIERS, List.find?]; linarith
    · intro t' ht'
      simp only [minAmountOf, TIERS, List.find?]
      fin_cases ht' <;> simp <;> norm_num <;> linarith
  · refine ⟨by decide, ?_, ?_⟩
    · simp [minAmountOf, TIERS, List.find?]; linarith
    · intro t' ht'
      simp only [minAmountOf, TIERS, List.find?]
      fin_cases ht' <;> simp <;> norm_num <;> linarith
  · refine ⟨by decide, ?_, ?_⟩
    · simp [minAmountOf, TIERS, List.find?]; linarith
    · intro t' ht'
      simp only [minAmountOf, TIERS, List.find?]
      fin_cases ht' <;> simp <;> norm_num <;> linarith
  · refine ⟨by decide, ?_, ?_⟩
    · simp [minAmountOf, TIERS, List.find?]; linarith
    · intro t' ht'
      simp only [minAmountOf, TIERS, List.find?]
      fin_cases ht' <;> simp <;> norm_num <;> linarith

/-- Witness for `c1_highest_qualifying_tier` at the concrete amount `18`. -/
theorem c1_highest_qualifying_tier_witness :
    (TIERS.filter (fun t => decide (t.id = get_tier_id 18))).length = 1 ∧
    minAmountOf (get_tier_id 18) ≤ 18 ∧
    ∀ t' ∈ TIERS, minAmountOf (get_tier_id 18) < t'.minAmount → 18 < t'.minAmount :=
  c1_highest_qualifying_tier 18 (by norm_num)

/-- C5: classification is total — every non-negative amount strictly below
the lowest tier floor `5` is sent to the fallback `"early_supporter"`. -/
theorem c5_fallback_below_floor (a : ℚ) (h0 : 0 ≤ a) (h5 : a < 5) :
    get_tier_id a = "early_supporter" := by
  rw [get_tier_id_eq a]
  split_ifs <;> first | rfl | (exfalso; linarith)

/-- Witness for `c5_fallback_below_floor` at the concrete amount `3`. -/
theorem c5_fallback_below_floor_witness :
    get_tier_id 3 = "early_supporter" :=
  c5_fallback_below_floor 3 (by norm_num) (by norm_num)

/-- C10: the classifier is monotone in tier rank — for non-negative amounts
`a ≤ b`, the rank of the tier assigned to `a` is at most the rank assigned
to `b`. -/
theorem c10_classifier_monotone (a b : ℚ) (h0 : 0 ≤ a) (hab : a ≤ b) :
    tierOrderOf (get_tier_id a) ≤ tierOrderOf (get_tier_id b) :=
  tierOrderOf_get_tier_id_mono hab

/-- Witness for `c10_classifier_monotone` at the concrete pair `(3, 100)`. -/
theorem c10_classifier_monotone_witness :
    tierOrderOf (get_tier_id 3) ≤ tierOrderOf (get_tier_id 100) :=
  c10_classifier_monotone 3 100 (by norm_num) (by norm_num)

/-! ## CSV parsing (`generate_sponsors.py`, lines 26-32 and 217-299) -/

/-- Fixed column index of the profile URL (`COL_URL = 2`). -/
def COL_URL : ℕ := 2

/-- Fixed column index of the note/bio (`COL_BIO = 3`). -/
def COL_BIO : ℕ := 3

/-- Fixed column index of the user name (`COL_USERNAME = 4`). -/
def COL_USERNAME : ℕ := 4

/-- Fixed column index of the amount (`COL_AMOUNT = 7`). -/
def COL_AMOUNT : ℕ := 7

/-- Fixed column index of the creation date (`COL_DATE = 17`). -/
def COL_DATE : ℕ := 17

/-- Strip characters satisfying `p` from both ends of a character list
(the effect of Python's `str.strip`). -/
def stripOn (p : Char → Bool) (cs : List Char) : List Char :=
  ((cs.dropWhile p).reverse.dropWhile p).reverse

/-- `.strip().strip('"')`, applied to every field by `parse_csv_line` and
again by `safe_get`. -/
def stripField (cs : List Char) : List Char :=
  stripOn (fun c => c = '"') (stripOn Char.isWhitespace cs)

/-- The character loop of `parse_csv_line` (lines 224-240): a quote toggles
the in-quotes flag (and is dropped), a comma outside quotes ends the current
field, anything else is appended to the current field; the final field is
appended after the loop.  Every finished field is stripped. -/
def parse_line_aux : List Char → List Char → Bool → List (List Char)
  | [], cur, _ => [stripField cur]
  | c :: rest, cur, inq =>
    if c = '"' then parse_line_aux rest cur (!inq)
    else if c = ',' && !inq then stripField cur :: parse_line_aux rest [] inq
    else parse_line_aux rest (cur ++ [c]) inq

/-- `parse_csv_line`: split one CSV line into fields, honouring quotes. -/
def parse_csv_line (line : String) : List String :=
  (parse_line_aux line.data [] false).map String.mk

/-- `safe_get` (lines 217-221): fetch `fields[index].strip().strip('"')`,
or `""` when the index is out of range. -/
def safe_get (fields : List String) (index : ℕ) : String :=
  match fields.get? index with
  | some f => String.mk (stripField f.data)
  | none => ""

/-- Character class `[a-f0-9]` of the user-id regular expression. -/
def isHexLowerOrDigit (c : Char) : Bool :=
  ('a' ≤ c && c ≤ 'f') || c.isDigit

/-- Leftmost match of the regular expression `/u/([a-f0-9]+)` (the search in
`extract_user_id_from_url`, line 86): scan left to right for a position
where `/u/` is followed by at least one `[a-f0-9]` character; the captured
group is the maximal such run. -/
def findUserIdRun : List Char → Option (List Char)
  | [] => none
  | c :: rest =>
    if c = '/' then
      match rest with
      | 'u' :: '/' :: rest2 =>
        let run := rest2.takeWhile isHexLowerOrDigit
        if run.isEmpty then findUserIdRun rest else some run
      | _ => findUserIdRun rest
    else findUserIdRun rest

/-- `extract_user_id_from_url` (lines 84-87): the captured hex run, or `""`
when the pattern does not match. -/
def extract_user_id_from_url (url : String) : String :=
  match findUserIdRun url.data with
  | some run => String.mk run
  | none => ""

/-- Character class `[\d.]` kept by the amount-cleaning substitution
(line 299); digits are modelled as ASCII digits. -/
def isAmountChar (c : Char) : Bool := c.isDigit || c = '.'

/-- `re.sub(r'[^\d.]', '', amount_str)`: drop every character that is not a
digit or a decimal point. -/
def clean_amount (s : String) : String :=
  String.mk (s.data.filter isAmountChar)

/-- Numeric value of a list of ASCII digits. -/
def natOfDigits (cs : List Char) : ℕ :=
  cs.foldl (fun n c => 10 * n + (c.toNat - 48)) 0

/-- Python's `float()` restricted to digit/point strings, with the float
value embedded in `ℚ`: it succeeds exactly when the string consists of
digits and at most one point and contains at least one digit (so `""`,
`"."` and `"1.2.3"` raise `ValueError`, i.e. return `none`). -/
def floatOfCleaned (s : String) : Option ℚ :=
  if s.data.all isAmountChar ∧ s.data.count '.' ≤ 1 ∧ s.data.any Char.isDigit then
    let ip := s.data.takeWhile (fun c => c ≠ '.')
    let fp := (s.data.dropWhile (fun c => c ≠ '.')).drop 1
    some ((natOfDigits ip : ℚ) + (natOfDigits fp : ℚ) / (10 : ℚ) ^ fp.length)
  else none

/-- Line 299 in full: `float(re.sub(r'[^\d.]', '', amount_str) or "0")`.
`none` models the `ValueError` caught by the row-level handler. -/
def parse_amount (s : String) : Option ℚ :=
  let cleaned := clean_amount s
  floatOfCleaned (if cleaned = "" then "0" else cleaned)

/-- C6: the parsed amount is the numeric conversion of the raw amount field
with every character other than a digit or a decimal point removed, and an
empty cleaned string converts to zero. -/
theorem c6_amount_cleaning (s : String) :
    parse_amount s =
      (if clean_amount s = "" then some 0 else floatOfCleaned (clean_amount s)) ∧
    clean_amount s = String.mk (s.data.filter (fun c => c.isDigit || c = '.')) := by
  constructor
  · by_cases h : clean_amount s = "" <;> simp only [parse_amount, h, if_pos, if_neg,
      reduceIte]
    rw [floatOfCleaned, if_pos (by decide)]
    dsimp only
    rw [show natOfDigits (("0" : String).data.takeWhile (fun c => c ≠ '.')) = 0 from rfl]
    rw [show (("0" : String).data.dropWhile (fun c => c ≠ '.')).drop 1 = ([] : List Char)
      from rfl]
    norm_num [natOfDigits]
  · rfl

/-! ## Sponsor aggregation (`parse_csv`, lines 243-329) -/

/-- The per-user aggregate record created by the `defaultdict` in
`parse_csv` (lines 248-254). -/
structure Sponsor where
  name : String
  total_amount : ℚ
  bio : String
  join_date : String
  url : String
deriving DecidableEq, Repr

/-- The `defaultdict` initial value (lines 248-254). -/
def initSponsor : Sponsor := ⟨"", 0, "", "", ""⟩

/-- The aggregation map, as an insertion-ordered association list: this is
how a Python `dict` behaves (existing keys update in place, new keys append
at the end). -/
abbrev SponsorsMap := List (String × Sponsor)

/-- Dictionary lookup. -/
def lookupSp : SponsorsMap → String → Option Sponsor
  | [], _ => none
  | (k, v) :: rest, key => if k = key then some v else lookupSp rest key

/-- Dictionary update: replace in place, or append a new key at the end. -/
def setSp : SponsorsMap → String → Sponsor → SponsorsMap
  | [], key, v => [(key, v)]
  | (k, w) :: rest, key, v =>
    if k = key then (key, v) :: rest else (k, w) :: setSp rest key v

/-- The keys of the map, in insertion order. -/
def keysSp (m : SponsorsMap) : List String := m.map Prod.fst

/-- One parsed transaction row — the spec's `RawContribution` — holding the
extracted identity token, the username field, the parsed amount, the bio
field and the raw date field (lines 287-299). -/
structure RawContribution where
  user_id : String
  name : String
  amount : ℚ
  bio : String
  date_str : String
deriving DecidableEq, Repr

/-- Python's `str.startswith`. -/
def pyStartsWith (s pre : String) : Bool := pre.data.isPrefixOf s.data

/-- The placeholder-name pattern recognized by the name-precedence rule of
`parse_csv` (line 307). -/
def anonPlaceholder : String := "爱发电用户_"

/-- Python's `str.isprintable`, modelled on the ASCII range the script can
encounter: every character except ASCII control characters and DEL counts
as printable.  (The script additionally restricts to code points below
65536, which is modelled separately at the use site.) -/
def pyIsPrintable (c : Char) : Bool := !(c.toNat < 32 || c.toNat = 127)

/-- Leftmost match of the regular expression `(\d{4}-\d{2})` used for the
join-date (line 319): scan left to right for four digits, a dash and two
digits. -/
def findMonthRun : List Char → Option (List Char)
  | [] => none
  | c :: rest =>
    match rest with
    | b :: c2 :: d :: '-' :: e :: f :: _ =>
      if c.isDigit && b.isDigit && c2.isDigit && d.isDigit && e.isDigit && f.isDigit then
        some [c, b, c2, d, '-', e, f]
      else findMonthRun rest
    | _ => findMonthRun rest

/-- Lines 302-304: add the amount and (re)write the canonical profile URL. -/
def updAmountUrl (c : RawContribution) (s : Sponsor) : Sponsor :=
  { s with
    total_amount := s.total_amount + c.amount,
    url := "https://afdian.com/u/" ++ c.user_id }

/-- Lines 306-308: adopt the new name only when the row carries one and the
aggregate's current name is empty or matches the placeholder pattern. -/
def updName (c : RawContribution) (s : Sponsor) : Sponsor :=
  if c.name ≠ "" ∧ (s.name = "" ∨ pyStartsWith s.name anonPlaceholder = true) then
    { s with name := c.name }
  else s

/-- Lines 310-315: keep the longest cleaned bio seen so far, truncated to
200 characters. -/
def updBio (c : RawContribution) (s : Sponsor) : Sponsor :=
  if c.bio ≠ "" ∧ 1 < c.bio.length then
    let bioClean :=
      String.mk (c.bio.data.filter (fun ch => pyIsPrintable ch && ch.toNat < 65536))
    if s.bio.length < bioClean.length then
      { s with bio := String.mk (bioClean.data.take 200) }
    else s
  else s

/-- Lines 317-323: keep the lexicographically smallest year-month found in
the date field. -/
def updDate (c : RawContribution) (s : Sponsor) : Sponsor :=
  if c.date_str ≠ "" then
    match findMonthRun c.date_str.data with
    | some run =>
      let month := String.mk run
      if s.join_date = "" ∨ month < s.join_date then { s with join_date := month }
      else s
    | none => s
  else s

/-- The whole per-row mutation of the aggregate (lines 302-323), applied in
source order: amount and URL, then name, then bio, then join date. -/
def updateSponsor (c : RawContribution) (s : Sponsor) : Sponsor :=
  updDate c (updBio c (updName c (updAmountUrl c s)))

/-- One step of the aggregation fold: fetch (or default) the aggregate for
the row's identity and store it back updated. -/
def foldStep (m : SponsorsMap) (c : RawContribution) : SponsorsMap :=
  setSp m c.user_id (updateSponsor c ((lookupSp m c.user_id).getD initSponsor))

/-- The aggregation fold over a sequence of contributions. -/
def foldContribs (m : SponsorsMap) (cs : List RawContribution) : SponsorsMap :=
  cs.foldl foldStep m

/-- Lines 287-299: turn one split row into a contribution; `none` when the
URL field has no extractable identity, or when the amount raises
`ValueError` (both make the row contribute nothing). -/
def rowToContrib (fields : List String) : Option RawContribution :=
  let user_id := extract_user_id_from_url (safe_get fields COL_URL)
  if user_id = "" then none
  else
    match parse_amount (safe_get fields COL_AMOUNT) with
    | none => none
    | some amount =>
      some ⟨user_id, safe_get fields COL_USERNAME, amount,
        safe_get fields COL_BIO, safe_get fields COL_DATE⟩

/-- One line of the loop body (lines 280-323): blank lines are skipped, the
rest is split and handed to `rowToContrib`. -/
def lineToContrib (line : String) : Option RawContribution :=
  if String.mk (stripOn Char.isWhitespace line.data) = "" then none
  else rowToContrib (parse_csv_line line)

/-- `parse_csv` restricted to its row-processing loop: the header line is
skipped and each remaining line folds into the map. -/
def parse_csv_lines (lines : List String) : SponsorsMap :=
  (lines.drop 1).foldl
    (fun m line =>
      match lineToContrib line with
      | none => m
      | some c => foldStep m c)
    []

/-- The sequence of contributions a list of lines produces. -/
def contribsOfLines (lines : List String) : List RawContribution :=
  (lines.drop 1).filterMap lineToContrib

/-- The sum of the amounts of the contributions attributed to `id`. -/
def sumAmounts (id : String) (cs : List RawContribution) : ℚ :=
  ((cs.filter (fun c => c.user_id = id)).map RawContribution.amount).sum

theorem lookupSp_setSp_self (m : SponsorsMap) (k : String) (v : Sponsor) :
    lookupSp (setSp m k v) k = some v := by
  induction m with
  | nil => simp [setSp, lookupSp]
  | cons p rest ih =>
    obtain ⟨a, w⟩ := p
    by_cases h : a = k <;> simp [setSp, lookupSp, h, ih]

theorem lookupSp_setSp_ne (m : SponsorsMap) {k k' : String} (v : Sponsor)
    (h : k ≠ k') : lookupSp (setSp m k v) k' = lookupSp m k' := by
  induction m with
  | nil => simp [setSp, lookupSp, h]
  | cons p rest ih =>
    obtain ⟨a, w⟩ := p
    by_cases hak : a = k
    · subst hak
      simp [setSp, lookupSp, h]
    · by_cases hak' : a = k' <;> simp [setSp, lookupSp, hak, hak', Ne.symm h, ih]

theorem mem_keysSp_setSp (m : SponsorsMap) (k k' : String) (v : Sponsor) :
    k' ∈ keysSp (setSp m k v) ↔ k' = k ∨ k' ∈ keysSp m := by
  induction m with
  | nil => simp [setSp, keysSp]
  | cons p rest ih =>
    obtain ⟨a, w⟩ := p
    by_cases hak : a = k
    · subst hak
      simp [setSp, keysSp]
      try tauto
    · simp [setSp, keysSp, hak] at ih ⊢
      try tauto

theorem nodup_keysSp_setSp (m : SponsorsMap) (k : String) (v : Sponsor)
    (h : (keysSp m).Nodup) : (keysSp (setSp m k v)).Nodup := by
  induction m with
  | nil => simp [setSp, keysSp]
  | cons p rest ih =>
    obtain ⟨a, w⟩ := p
    simp only [keysSp, List.map_cons, List.nodup_cons] at h
    by_cases hak : a = k
    · subst hak
      simpa [setSp, keysSp] using h
    · have := ih h.2
      simp only [setSp, hak, if_neg, ite_false, keysSp, List.map_cons, List.nodup_cons]
      refine ⟨?_, this⟩
      intro hmem
      rcases (mem_keysSp_setSp rest k a v).mp hmem with h1 | h2
      · exact hak h1
      · exact h.1 h2

theorem lookupSp_isSome_iff (m : SponsorsMap) (key : String) :
    (lookupSp m key).isSome ↔ key ∈ keysSp m := by
  induction m with
  | nil => simp [lookupSp, keysSp]
  | cons p rest ih =>
    obtain ⟨a, w⟩ := p
    by_cases h : a = key
    · simp [lookupSp, keysSp, h]
    · simp [lookupSp, keysSp, h, Ne.symm h, ih]

theorem updAmountUrl_total (c : RawContribution) (s : Sponsor) :
    (updAmountUrl c s).total_amount = s.total_amount + c.amount := rfl

theorem updName_total (c : RawContribution) (s : Sponsor) :
    (updName c s).total_amount = s.total_amount := by
  unfold updName
  split <;> rfl

theorem updBio_total (c : RawContribution) (s : Sponsor) :
    (updBio c s).total_amount = s.total_amount := by
  unfold updBio
  split
  · dsimp only
    split <;> rfl
  · rfl

theorem updDate_total (c : RawContribution) (s : Sponsor) :
    (updDate c s).total_amount = s.total_amount := by
  unfold updDate
  split
  · split
    · dsimp only
      split <;> rfl
    · rfl
  · rfl

theorem updateSponsor_total (c : RawContribution) (s : Sponsor) :
    (updateSponsor c s).total_amount = s.total_amount + c.amount := by
  unfold updateSponsor
  rw [updDate_total, updBio_total, updName_total, updAmountUrl_total]

theorem sumAmounts_append (id : String) (cs ds : List RawContribution) :
    sumAmounts id (cs ++ ds) = sumAmounts id cs + sumAmounts id ds := by
  simp [sumAmounts, List.filter_append]

theorem sumAmounts_single (id : String) (c : RawContribution) :
    sumAmounts id [c] = if c.user_id = id then c.amount else 0 := by
  by_cases h : c.user_id = id <;> simp [sumAmounts, List.filter, h]

theorem sumAmounts_eq_zero (id : String) (cs : List RawContribution)
    (h : id ∉ cs.map RawContribution.user_id) : sumAmounts id cs = 0 := by
  induction cs with
  | nil => rfl
  | cons c cs ih =>
    simp only [List.map_cons, List.mem_cons, not_or] at h
    have hne : ¬ (c.user_id = id) := fun hh => h.1 hh.symm
    rw [show (c :: cs) = [c] ++ cs from rfl, sumAmounts_append, sumAmounts_single,
      if_neg hne, ih h.2, zero_add]

/-- The aggregation invariant of `parse_csv`: after folding `done`, the map
has pairwise-distinct keys, a key is present exactly when some contribution
carries it, and each aggregate's amount is the sum over its contributions. -/
def aggInv (done : List RawContribution) (m : SponsorsMap) : Prop :=
  (keysSp m).Nodup ∧
  (∀ id, (lookupSp m id).isSome ↔ id ∈ done.map RawContribution.user_id) ∧
  (∀ id s, lookupSp m id = some s → s.total_amount = sumAmounts id done)

theorem aggInv_nil : aggInv [] [] := by
  refine ⟨by simp [keysSp], ?_, ?_⟩
  · intro id
    simp [lookupSp]
  · intro id s h
    simp [lookupSp] at h

theorem aggInv_step {done : List RawContribution} {m : SponsorsMap}
    (h : aggInv done m) (c : RawContribution) :
    aggInv (done ++ [c]) (foldStep m c) := by
  obtain ⟨hnd, hmem, hsum⟩ := h
  refine ⟨nodup_keysSp_setSp _ _ _ hnd, ?_, ?_⟩
  · intro i
    by_cases hid : i = c.user_id
    · rw [hid]
      simp [foldStep, lookupSp_setSp_self]
    · rw [foldStep, lookupSp_setSp_ne _ _ (fun hh => hid hh.symm)]
      simp only [List.map_append, List.map_cons, List.map_nil, List.mem_append,
        List.mem_singleton]
      rw [hmem i]
      tauto
  · intro i s hls
    by_cases hid : i = c.user_id
    · rw [hid] at hls ⊢
      rw [foldStep, lookupSp_setSp_self] at hls
      have hs : s = updateSponsor c ((lookupSp m c.user_id).getD initSponsor) :=
        (Option.some.inj hls).symm
      rw [sumAmounts_append, sumAmounts_single, if_pos rfl]
      cases hl : lookupSp m c.user_id with
      | none =>
        have hnm : c.user_id ∉ done.map RawContribution.user_id := by
          rw [← hmem c.user_id, hl]
          simp
        rw [hs, hl, updateSponsor_total, Option.getD_none,
          sumAmounts_eq_zero _ done hnm]
        rfl
      | some t =>
        rw [hs, hl, updateSponsor_total, Option.getD_some, hsum c.user_id t hl]
    · rw [foldStep, lookupSp_setSp_ne _ _ (fun hh => hid hh.symm)] at hls
      rw [sumAmounts_append, sumAmounts_single, if_neg (fun hh => hid hh.symm),
        add_zero]
      exact hsum i s hls

theorem aggInv_fold {done : List RawContribution} {m : SponsorsMap}
    (h : aggInv done m) (cs : List RawContribution) :
    aggInv (done ++ cs) (foldContribs m cs) := by
  induction cs generalizing done m with
  | nil => simpa [foldContribs] using h
  | cons c cs ih =>
    have h1 := aggInv_step h c
    have h2 := ih h1
    simpa [foldContribs, List.foldl_cons] using h2

theorem parse_csv_lines_eq_foldContribs (lines : List String) :
    parse_csv_lines lines = foldContribs [] (contribsOfLines lines) := by
  suffices h : ∀ (ls : List String) (m : SponsorsMap),
      ls.foldl
        (fun m line =>
          match lineToContrib line with
          | none => m
          | some c => foldStep m c)
        m = foldContribs m (ls.filterMap lineToContrib) by
    exact h _ _
  intro ls
  induction ls with
  | nil => intro m; rfl
  | cons l ls ih =>
    intro m
    cases hl : lineToContrib l <;>
      simp [List.filterMap_cons, hl, foldContribs, List.foldl_cons, ih,
        foldContribs]

/-- C3: folding any sequence of contributions yields exactly one aggregate
per distinct identity token, with the accumulated amount equal to the sum
of that identity's contribution amounts; and `parse_csv` is exactly this
fold over the contributions its rows produce. -/
theorem c3_aggregate_sums :
    (∀ cs : List RawContribution,
      (keysSp (foldContribs [] cs)).Nodup ∧
      (∀ id, (lookupSp (foldContribs [] cs) id).isSome ↔
        id ∈ cs.map RawContribution.user_id) ∧
      (∀ id s, lookupSp (foldContribs [] cs) id = some s →
        s.total_amount = sumAmounts id cs)) ∧
    (∀ lines : List String,
      parse_csv_lines lines = foldContribs [] (contribsOfLines lines)) := by
  constructor
  · intro cs
    have h := aggInv_fold aggInv_nil cs
    simpa [aggInv] using h
  · exact parse_csv_lines_eq_foldContribs

theorem lineToContrib_eq_none_of_no_uid (bad : String)
    (h : extract_user_id_from_url (safe_get (parse_csv_line bad) COL_URL) = "") :
    lineToContrib bad = none := by
  unfold lineToContrib
  split
  · rfl
  · simp [rowToContrib, h]

/-- C7: a row whose URL field yields no identity token contributes nothing:
removing it from the file leaves the aggregation result unchanged (hence it
has no entry in the output map, and — the fold being a total function — it
cannot abort the processing of the remaining rows). -/
theorem c7_unextractable_row_is_noop (header bad : String) (l1 l2 : List String)
    (h : extract_user_id_from_url (safe_get (parse_csv_line bad) COL_URL) = "") :
    parse_csv_lines (header :: (l1 ++ bad :: l2)) =
      parse_csv_lines (header :: (l1 ++ l2)) := by
  have hb := lineToContrib_eq_none_of_no_uid bad h
  unfold parse_csv_lines
  simp only [List.drop_succ_cons, List.drop_zero, List.foldl_append, List.foldl_cons,
    hb]

/-- Witness for `c7_unextractable_row_is_noop`: a row with no `/u/<hex>`
segment, placed between two valid rows. -/
theorem c7_unextractable_row_is_noop_witness :
    parse_csv_lines ["header",
      "1,2,https://afdian.com/u/ab12cd,hi,User1,x,Tier1,5,,,,,,,,,,2024-01-02",
      "no,user,id here,x,y,z",
      "1,2,https://afdian.com/u/ef34ab,yo,User2,x,Tier1,7,,,,,,,,,,2024-02-03"] =
    parse_csv_lines ["header",
      "1,2,https://afdian.com/u/ab12cd,hi,User1,x,Tier1,5,,,,,,,,,,2024-01-02",
      "1,2,https://afdian.com/u/ef34ab,yo,User2,x,Tier1,7,,,,,,,,,,2024-02-03"] :=
  c7_unextractable_row_is_noop "header" "no,user,id here,x,y,z"
    ["1,2,https://afdian.com/u/ab12cd,hi,User1,x,Tier1,5,,,,,,,,,,2024-01-02"]
    ["1,2,https://afdian.com/u/ef34ab,yo,User2,x,Tier1,7,,,,,,,,,,2024-02-03"]
    (by rfl)

theorem updAmountUrl_name (c : RawContribution) (s : Sponsor) :
    (updAmountUrl c s).name = s.name := rfl

theorem updBio_name (c : RawContribution) (s : Sponsor) :
    (updBio c s).name = s.name := by
  unfold updBio
  split
  · dsimp only
    split <;> rfl
  · rfl

theorem updDate_name (c : RawContribution) (s : Sponsor) :
    (updDate c s).name = s.name := by
  unfold updDate
  split
  · split
    · dsimp only
      split <;> rfl
    · rfl
  · rfl

theorem updateSponsor_name (c : RawContribution) (s : Sponsor) :
    (updateSponsor c s).name =
      if c.name ≠ "" ∧ (s.name = "" ∨ pyStartsWith s.name anonPlaceholder = true)
      then c.name else s.name := by
  unfold updateSponsor
  rw [updDate_name, updBio_name]
  unfold updName
  split <;> split <;> first | rfl | (exfalso; simp_all [updAmountUrl])

/-- C2 counterexample: for one identity contributing first under the name
`匿名_ab12c` and then under `张三`, the aggregate keeps `匿名_ab12c` — the
`匿名_` pattern is not the placeholder pattern `parse_csv` recognizes, so
the claimed order-independent override to `张三` fails. -/
theorem c2_counterexample :
    (lookupSp
        (foldContribs []
          [⟨"ab12cdef", "匿名_ab12c", 10, "", ""⟩,
           ⟨"ab12cdef", "张三", 10, "", ""⟩])
        "ab12cdef").map Sponsor.name = some "匿名_ab12c" ∧
    ("匿名_ab12c" : String) ≠ "张三" := by
  constructor
  · rfl
  · decide

/-- C2 (amended): with the placeholder pattern the code actually recognizes
(prefix `爱发电用户_`), a placeholder name never overrides a real name, in
either arrival order: the aggregate's final name is the real name. -/
theorem c2_placeholder_never_overrides (uid p real : String) (a1 a2 : ℚ)
    (b1 b2 d1 d2 : String) (hreal : real ≠ "")
    (hrealnp : pyStartsWith real anonPlaceholder = false)
    (hp : pyStartsWith p anonPlaceholder = true) :
    (lookupSp (foldContribs [] [⟨uid, p, a1, b1, d1⟩, ⟨uid, real, a2, b2, d2⟩])
      uid).map Sponsor.name = some real ∧
    (lookupSp (foldContribs [] [⟨uid, real, a2, b2, d2⟩, ⟨uid, p, a1, b1, d1⟩])
      uid).map Sponsor.name = some real := by
  have hpne : p ≠ "" := by
    intro hh
    rw [hh] at hp
    exact absurd hp (by decide)
  constructor
  · simp only [foldContribs, List.foldl_cons, List.foldl_nil, foldStep, lookupSp,
      setSp, if_pos rfl, Option.getD_some, Option.getD_none, Option.map_some]
    simp only [if_true, Option.getD_some, Option.map_some']
    rw [updateSponsor_name, updateSponsor_name]
    simp [initSponsor, hpne, hp, hreal, hrealnp]
  · simp only [foldContribs, List.foldl_cons, List.foldl_nil, foldStep, lookupSp,
      setSp, if_pos rfl, Option.getD_some, Option.getD_none, Option.map_some]
    simp only [if_true, Option.getD_some, Option.map_some']
    rw [updateSponsor_name, updateSponsor_name]
    simp [initSponsor, hpne, hp, hreal, hrealnp]

/-- Witness for `c2_placeholder_never_overrides` with the real placeholder
prefix. -/
theorem c2_placeholder_never_overrides_witness :
    (lookupSp (foldContribs []
        [⟨"ab12cdef", "爱发电用户_x", 10, "", ""⟩,
         ⟨"ab12cdef", "张三", 20, "", ""⟩]) "ab12cdef").map Sponsor.name =
      some "张三" ∧
    (lookupSp (foldContribs []
        [⟨"ab12cdef", "张三", 20, "", ""⟩,
         ⟨"ab12cdef", "爱发电用户_x", 10, "", ""⟩]) "ab12cdef").map Sponsor.name =
      some "张三" :=
  c2_placeholder_never_overrides "ab12cdef" "爱发电用户_x" "张三" 10 20 "" "" "" ""
    (by decide) (by decide) (by decide)

/-! ## Output document construction
(`generate_sponsors_json`, lines 332-378, and `process_sponsors`,
`fetch_from_api.py` lines 132-174) -/

/-- `GITHUB_RAW_BASE` (line 91). -/
def GITHUB_RAW_BASE : String :=
  "https://raw.githubusercontent.com/RotatingArtDev/RAL-Sponsors/main"

/-- `AVATARS_DIR` (line 95). -/
def AVATARS_DIR : String := "avatars"

/-- The filename `generate_avatar` saves and returns (line 194); the image
rendering itself is file I/O outside the embedded logic. -/
def avatar_filename (user_id : String) : String :=
  String.mk (user_id.data.take 12) ++ ".png"

/-- `get_avatar_url` (lines 201-206); its `user_id` parameter is unused in
the source as well. -/
def get_avatar_url (user_id filename : String) : String :=
  GITHUB_RAW_BASE ++ "/" ++ AVATARS_DIR ++ "/" ++ filename

/-- One output sponsor record (the dictionaries built at lines 350-358 and
`fetch_from_api.py` lines 151-159). -/
structure OutSponsor where
  id : String
  name : String
  avatarUrl : String
  bio : String
  tier : String
  joinDate : String
  website : String
deriving DecidableEq, Repr

/-- The record built for one aggregate by the loop of
`generate_sponsors_json` (lines 341-359).  `joinDate` uses
`data.get("join_date", ...)` in the source, but the key is always present
in aggregates coming from `parse_csv`, so the current-date default is dead
code and the field is the aggregate's join date. -/
def mkOutSponsor (user_id : String) (data : Sponsor) : OutSponsor :=
  let name :=
    if data.name = "" then "匿名支持者_" ++ String.mk (user_id.data.take 5)
    else data.name
  { id := user_id,
    name := name,
    avatarUrl := get_avatar_url user_id (avatar_filename user_id),
    bio := data.bio,
    tier := get_tier_id data.total_amount,
    joinDate := data.join_date,
    website := "https://afdian.com/u/" ++ user_id }

/-- The sponsor list of `generate_sponsors_json`: one record per aggregate,
then a stable sort by accumulated amount, descending (lines 361-362, with
the key looked up in `sponsors_data` by record id). -/
def generate_sponsors_list (m : SponsorsMap) : List OutSponsor :=
  (m.map (fun p => mkOutSponsor p.1 p.2)).mergeSort
    (fun x y =>
      decide (((lookupSp m y.id).getD initSponsor).total_amount ≤
        ((lookupSp m x.id).getD initSponsor).total_amount))

/-- A `user` object of an API response record (`fetch_from_api.py` lines
137-144): `user_id` and `avatar` are read with default `''`, while `name`
is read with a computed default, so a missing key is modelled as `none`. -/
structure ApiUser where
  user_id : String
  name : Option String
  avatar : String
deriving DecidableEq, Repr

/-- One API response record (`fetch_from_api.py` lines 136-149);
`all_sum_amount` holds the value of `float(sponsor.get('all_sum_amount', 0))`. -/
structure ApiSponsor where
  user : ApiUser
  all_sum_amount : ℚ
  first_pay_time : String
deriving DecidableEq, Repr

/-- The sponsor list of `process_sponsors` (`fetch_from_api.py` lines
132-165): records with an empty `user_id` are skipped, then the list is
stable-sorted by tier rank, descending. -/
def process_sponsors_list (api_sponsors : List ApiSponsor) : List OutSponsor :=
  (api_sponsors.filterMap (fun sp =>
    if sp.user.user_id = "" then none
    else
      some
        { id := sp.user.user_id,
          name := sp.user.name.getD ("匿名_" ++ String.mk (sp.user.user_id.data.take 5)),
          avatarUrl :=
            if sp.user.avatar = "" then
              "https://pic1.afdiancdn.com/default/avatar/avatar-purple.png"
            else sp.user.avatar,
          bio := "",
          tier := get_tier_id sp.all_sum_amount,
          joinDate :=
            if sp.first_pay_time = "" then ""
            else String.mk (sp.first_pay_time.data.take 7),
          website := "https://afdian.com/u/" ++ sp.user.user_id })).mergeSort
    (fun x y => decide (tierOrderOf y.tier ≤ tierOrderOf x.tier))

theorem lookupSp_eq_some_of_mem {m : SponsorsMap} {k : String} {v : Sponsor}
    (hnd : (keysSp m).Nodup) (hmem : (k, v) ∈ m) : lookupSp m k = some v := by
  induction m with
  | nil => simp at hmem
  | cons p rest ih =>
    obtain ⟨a, w⟩ := p
    simp only [keysSp, List.map_cons, List.nodup_cons] at hnd
    rcases List.mem_cons.mp hmem with h | h
    · obtain ⟨rfl, rfl⟩ := Prod.mk.injEq .. ▸ h
      simp [lookupSp]
    · by_cases hak : a = k
      · exfalso
        apply hnd.1
        subst hak
        exact List.mem_map.mpr ⟨(a, v), h, rfl⟩
      · simpa [lookupSp, hak] using ih hnd.2 h

/-- C4: in both scripts the emitted sponsor list is ordered by tier rank,
descending: for any two adjacent records the earlier one's tier rank is at
least the later one's.  For the CSV variant (sorted by amount) this follows
from monotonicity of the classifier; the API variant sorts by rank
directly.  The CSV variant needs distinct aggregate keys, which `parse_csv`
guarantees. -/
theorem c4_sorted_by_tier_rank :
    (∀ m : SponsorsMap, (keysSp m).Nodup →
      List.Chain' (fun x y => tierOrderOf y.tier ≤ tierOrderOf x.tier)
        (generate_sponsors_list m)) ∧
    (∀ api_sponsors : List ApiSponsor,
      List.Chain' (fun x y => tierOrderOf y.tier ≤ tierOrderOf x.tier)
        (process_sponsors_list api_sponsors)) := by
  constructor
  · intro m hnd
    unfold generate_sponsors_list
    have hsorted :
        ((m.map (fun p => mkOutSponsor p.1 p.2)).mergeSort
          (fun x y =>
            decide (((lookupSp m y.id).getD initSponsor).total_amount ≤
              ((lookupSp m x.id).getD initSponsor).total_amount))).Pairwise
          (fun x y =>
            decide (((lookupSp m y.id).getD initSponsor).total_amount ≤
              ((lookupSp m x.id).getD initSponsor).total_amount) = true) := by
      apply List.sorted_mergeSort
      · intro a b c hab hbc
        simp only [decide_eq_true_eq] at *
        exact le_trans hbc hab
      · intro a b
        simp only [Bool.or_eq_true, decide_eq_true_eq]
        exact le_total _ _
    have htier : ∀ r ∈ (m.map (fun p => mkOutSponsor p.1 p.2)).mergeSort
        (fun x y =>
          decide (((lookupSp m y.id).getD initSponsor).total_amount ≤
            ((lookupSp m x.id).getD initSponsor).total_amount)),
        r.tier = get_tier_id (((lookupSp m r.id).getD initSponsor).total_amount) := by
      intro r hr
      rw [List.mem_mergeSort] at hr
      obtain ⟨⟨uid, d⟩, hmemM, rfl⟩ := List.mem_map.mp hr
      have : lookupSp m uid = some d := lookupSp_eq_some_of_mem hnd hmemM
      simp [mkOutSponsor, this]
    refine List.Pairwise.chain' ?_
    refine hsorted.imp_of_mem ?_
    intro a b ha hb hle
    rw [htier a ha, htier b hb]
    simp only [decide_eq_true_eq] at hle
    exact tierOrderOf_get_tier_id_mono hle
  · intro api_sponsors
    unfold process_sponsors_list
    have hsorted : ∀ l : List OutSponsor,
        (l.mergeSort
          (fun x y => decide (tierOrderOf y.tier ≤ tierOrderOf x.tier))).Pairwise
          (fun x y => decide (tierOrderOf y.tier ≤ tierOrderOf x.tier) = true) := by
      intro l
      apply List.sorted_mergeSort
      · intro a b c hab hbc
        simp only [decide_eq_true_eq] at *
        exact le_trans hbc hab
      · intro a b
        simp only [Bool.or_eq_true, decide_eq_true_eq]
        exact le_total _ _
    refine List.Pairwise.chain' ?_
    refine (hsorted _).imp_of_mem ?_
    intro a b ha hb hle
    simpa using hle

/-- Witness for `c4_sorted_by_tier_rank` on a two-aggregate map. -/
theorem c4_sorted_by_tier_rank_witness :
    List.Chain' (fun x y => tierOrderOf y.tier ≤ tierOrderOf x.tier)
      (generate_sponsors_list
        [("ab12cdef", ⟨"甲", 30, "", "2024-01", ""⟩),
         ("ef34abcd", ⟨"乙", 250, "", "2024-02", ""⟩)]) :=
  c4_sorted_by_tier_rank.1 _ (by decide)

/-! ## Process outcomes (`main` of both scripts) -/

/-- The externally observable outcome of a run: the process exit code,
whether the output JSON was written, and whether an `[ERROR]` diagnostic
was printed. -/
structure RunOutcome where
  exitCode : ℕ
  wroteOutput : Bool
  printedDiagnostic : Bool
deriving DecidableEq, Repr

/-- `main` of `generate_sponsors.py` (lines 381-421), as a function of the
input lines, abstracted to its outcome: an empty parse result prints
`[ERROR]` and calls `sys.exit(1)` before any file is written; otherwise the
JSON is written and a summary (no error) is printed. -/
def main_csv_run (lines : List String) : RunOutcome :=
  if parse_csv_lines lines = [] then ⟨1, false, true⟩ else ⟨0, true, false⟩

/-- `main` of `fetch_from_api.py` (lines 177-207), as a function of the
fetched sponsor list: an empty list prints `[ERROR]` and returns from
`main` — the interpreter then exits with code `0` — and no file is
written; otherwise the JSON is written. -/
def main_api_run (api_sponsors : List ApiSponsor) : RunOutcome :=
  if api_sponsors = [] then ⟨0, false, true⟩ else ⟨0, true, false⟩

/-- C8 counterexample: with zero fetched sponsors the API variant prints a
diagnostic and writes nothing, but its exit code is `0`, not the claimed
non-zero failure indication. -/
theorem c8_counterexample :
    (main_api_run []).printedDiagnostic = true ∧
    (main_api_run []).wroteOutput = false ∧
    ¬ (main_api_run []).exitCode ≠ 0 := by
  refine ⟨rfl, rfl, ?_⟩
  intro h
  exact h rfl

/-- C8 (amended): a run with zero parsed sponsors prints a diagnostic and
writes no output file in both variants; the CSV variant exits with code
`1`, while the API variant returns from `main` with exit code `0`. -/
theorem c8_zero_sponsors_outcome :
    (∀ lines : List String, parse_csv_lines lines = [] →
      main_csv_run lines = ⟨1, false, true⟩) ∧
    (∀ api_sponsors : List ApiSponsor, api_sponsors = [] →
      main_api_run api_sponsors = ⟨0, false, true⟩) := by
  constructor
  · intro lines h
    simp [main_csv_run, h]
  · intro l h
    simp [main_api_run, h]

/-- Witness for `c8_zero_sponsors_outcome`: a header-only CSV file and an
empty API result. -/
theorem c8_zero_sponsors_outcome_witness :
    main_csv_run ["header"] = ⟨1, false, true⟩ ∧
    main_api_run [] = ⟨0, false, true⟩ :=
  ⟨c8_zero_sponsors_outcome.1 ["header"] rfl,
   c8_zero_sponsors_outcome.2 [] rfl⟩

/-! ## Placeholder-avatar glyph (`get_initials`, lines 114-133) -/

/-- The CJK test of `get_initials` (line 125): a code point in the range
`一`-`鿿`. -/
def isCJK (c : Char) : Bool :=
  0x4e00 ≤ c.toNat && c.toNat ≤ 0x9fff

/-- Python's `str.isalpha` for a single character, on the character ranges
this script encounters: ASCII letters and CJK ideographs.  (Python's test
covers all Unicode letter categories; only these two ranges can reach the
test in `get_initials`.) -/
def pyIsAlpha (c : Char) : Bool := c.isAlpha || isCJK c

/-- `get_initials` (lines 114-133).  Python's one-character `str.upper()`
agrees with `Char.toUpper` on the ASCII and CJK characters this script
handles. -/
def get_initials (name : String) : String :=
  if name = "" then "?"
  else if pyStartsWith name anonPlaceholder = true then
    String.mk [(name.data.getLastD '?').toUpper]
  else
    match name.data.find? isCJK with
    | some c => String.mk [c]
    | none =>
      let first := (name.data.headD '?').toUpper
      if pyIsAlpha first then String.mk [first]
      else String.mk [name.data.headD '?']

/-- C9 counterexample: the name `爱发电用户_abc` contains the CJK character
`爱`, yet `get_initials` returns `C` (the uppercased last character), not
the first CJK character — the claim misses the `爱发电用户_` prefix
branch. -/
theorem c9_counterexample :
    get_initials "爱发电用户_abc" = "C" ∧
    ("爱发电用户_abc" : String).data.find? isCJK = some '爱' ∧
    ("C" : String) ≠ "爱" := by
  refine ⟨rfl, rfl, by decide⟩

/-- C9 (amended): for a non-empty name, `get_initials` returns the
uppercased last character when the name starts with `爱发电用户_`;
otherwise the first CJK character when one is present anywhere; otherwise
the uppercased first character when that is alphabetic; otherwise the first
character itself.  (The fallback glyph `?` is returned only for the empty
name.) -/
theorem c9_initials_characterization (name : String) (h : name ≠ "") :
    (pyStartsWith name anonPlaceholder = true →
      get_initials name = String.mk [(name.data.getLastD '?').toUpper]) ∧
    (pyStartsWith name anonPlaceholder = false →
      (∀ c, name.data.find? isCJK = some c → get_initials name = String.mk [c]) ∧
      (name.data.find? isCJK = none →
        (pyIsAlpha ((name.data.headD '?').toUpper) = true →
          get_initials name = String.mk [(name.data.headD '?').toUpper]) ∧
        (pyIsAlpha ((name.data.headD '?').toUpper) = false →
          get_initials name = String.mk [name.data.headD '?']))) := by
  unfold get_initials
  rw [if_neg h]
  constructor
  · intro hpfx
    rw [if_pos hpfx]
  · intro hpfx
    rw [if_neg (by simp [hpfx])]
    constructor
    · intro c hc
      rw [hc]
    · intro hnone
      rw [hnone]
      dsimp only
      constructor
      · intro ha
        rw [if_pos ha]
      · intro ha
        rw [if_neg (by rw [ha]; simp)]

/-- Witness for `c9_initials_characterization` on the prefix branch. -/
theorem c9_initials_characterization_witness :
    get_initials "爱发电用户_abc" =
      String.mk [(("爱发电用户_abc" : String).data.getLastD '?').toUpper] :=
  (c9_initials_characterization "爱发电用户_abc" (by decide)).1 (by decide)

end RALSponsors
